import Mathlib

/-!
Shallow embedding of `src/backend/main.py` of the z-image-turbo repository: a FastAPI
backend serving a text-to-image diffusion pipeline over HTTP and over an MCP tool
protocol.  The module-level mutable state (the `model_config` dictionary, the global
`pipe` variable, the persisted `config.json` file, the `output` directory and the
console log) is modelled as an explicit `AppState` record threaded through the
operations.  External collaborators (CUDA, the diffusers pipeline class, the quanto
quantizer, the filesystem) are modelled by an `Env` record of availability and
failure flags, and the inference engine itself by a function parameter
`engine : EngineInput -> Image`.  Failure propagation (Python exceptions) is modelled
with `Except PyError`.  Two instrumentation counters, `acquireCount` (bumped at every
entry of `get_pipeline`) and `constructionCount` (bumped whenever the construction
body runs), mirror the counters the specification proposes for its testable
properties; they affect nothing else.
-/

namespace ZImageTurbo

/-- A raw configuration dictionary as stored in `config.json` / the module-global
`model_config` (lines 58-90 of main.py).  Each of the five recognised keys may be
absent, hence `Option` fields.  Unknown keys are never read and are not modelled. -/
structure RawConfig where
  cache_dir : Option String
  model_id : Option String
  gpu_device : Option Int
  cpu_offload : Option Bool
  fp8_quantization : Option Bool
deriving DecidableEq

/-- The default configuration dictionary returned by `load_config` when the file is
missing or unparsable (main.py lines 67-73). -/
def defaultConfig : RawConfig :=
  { cache_dir := some ""
    model_id := some "Tongyi-MAI/Z-Image-Turbo"
    gpu_device := some 1
    cpu_offload := some true
    fp8_quantization := some true }

/-- State of the persisted `config.json` file: `none` means the file does not exist,
`some none` means it exists but `json.load` fails on it, `some (some r)` means it
parses to the dictionary `r`. -/
abbrev ConfigFile : Type := Option (Option RawConfig)

/-- load_config (main.py lines 60-73): return the parsed file content when the file
exists and parses; on a missing file or a parse failure return the default
dictionary.  The function never raises. -/
def load_config (file : ConfigFile) : RawConfig :=
  match file with
  | some (some r) => r
  | some none => defaultConfig
  | none => defaultConfig

/-- The module-level initialisation of `model_config` (main.py lines 86-90):
`load_config` followed by the backward-compatibility backfill, which inserts
`cpu_offload := false` and `fp8_quantization := true` when the respective key is
absent from the loaded dictionary. -/
def initialModelConfig (file : ConfigFile) : RawConfig :=
  let c := load_config file
  let c := if c.cpu_offload = none then { c with cpu_offload := some false } else c
  if c.fp8_quantization = none then { c with fp8_quantization := some true } else c

/-- Console log events that the claims refer to (prints that matter to no claim are
elided). -/
inductive LogEvent
  | gpuFallbackWarning (configured : Int)
  | noCudaFallback
  | errorLoadingModel
  | errorSavingConfig
deriving DecidableEq

/-- Filesystem state relevant to the configuration store: the `config.json` content
and the outcome the next write to it will have.  `writable = true` means the write
as a whole succeeds.  When it fails, `openFails` distinguishes where: `true` means
`open(CONFIG_FILE, "w")` itself raises, leaving the file untouched; `false` means
the open (and hence the in-place truncation) succeeded and `json.dump` raised
mid-write, leaving the file truncated to a strict prefix of the new text. -/
structure Fs where
  config_file : ConfigFile
  writable : Bool
  openFails : Bool
deriving DecidableEq

/-- save_config (main.py lines 75-80): write the dictionary to `config.json`; a write
failure is printed and swallowed (the function has no error channel at all, matching
the try/except that catches every exception).  A failing open leaves the file as it
was; a failing dump leaves it truncated to a strict prefix of the serialized text,
which is never parsable JSON (the object's closing brace is its last character), so
at the parsed level the file then exists but does not parse. -/
def save_config (config : RawConfig) (fs : Fs) : Fs × List LogEvent :=
  if fs.writable then ({ fs with config_file := some (some config) }, [])
  else if fs.openFails then (fs, [LogEvent.errorSavingConfig])
  else ({ fs with config_file := some none }, [LogEvent.errorSavingConfig])

/-- JSON string literal rendering used by the byte-level model of `json.dump`
(escaping is irrelevant for the configuration values that occur here). -/
def jsonStr (s : String) : String := "\"" ++ s ++ "\""

/-- JSON boolean rendering. -/
def jsonBool (b : Bool) : String := if b then "true" else "false"

/-- The serialized fields of a configuration dictionary, present keys only, in the
insertion order of the default dictionary. -/
def jsonFields (c : RawConfig) : List String :=
  (match c.cache_dir with
   | some v => ["    \"cache_dir\": " ++ jsonStr v]
   | none => []) ++
  (match c.model_id with
   | some v => ["    \"model_id\": " ++ jsonStr v]
   | none => []) ++
  (match c.gpu_device with
   | some v => ["    \"gpu_device\": " ++ toString v]
   | none => []) ++
  (match c.cpu_offload with
   | some v => ["    \"cpu_offload\": " ++ jsonBool v]
   | none => []) ++
  (match c.fp8_quantization with
   | some v => ["    \"fp8_quantization\": " ++ jsonBool v]
   | none => [])

/-- The text `json.dump(config, f, indent=4)` produces for a configuration
dictionary. -/
def jsonDump (c : RawConfig) : String :=
  "\x7b\n" ++ String.intercalate ",\n" (jsonFields c) ++ "\n\x7d"

/-- Byte-level refinement of the write in save_config (main.py lines 77-78):
`open(CONFIG_FILE, "w")` truncates the file in place, then `json.dump` writes the
serialized text incrementally.  The list collects the file contents observable by a
concurrently scheduled reader: the old content, then every prefix of the new text
(starting with the empty content right after truncation) up to the complete text. -/
def save_config_write_trace (config : RawConfig) (old : String) : List String :=
  old :: (List.range ((jsonDump config).length + 1)).map (fun k => (jsonDump config).take k)

/-- Exceptions of the Python program that matter here: FastAPI HTTPException with a
status code, ValueError, and any other runtime exception. -/
inductive PyError
  | http (status : Nat) (detail : String)
  | valueError (msg : String)
  | runtimeError (msg : String)
deriving DecidableEq

/-- Decidable equality for Except values, used to evaluate concrete runs. -/
instance {ε α : Type} [DecidableEq ε] [DecidableEq α] : DecidableEq (Except ε α) := fun x y =>
  match x, y with
  | Except.ok a, Except.ok b =>
    if h : a = b then isTrue (by rw [h]) else isFalse (by intro hh; cases hh; exact h rfl)
  | Except.error a, Except.error b =>
    if h : a = b then isTrue (by rw [h]) else isFalse (by intro hh; cases hh; exact h rfl)
  | Except.ok _, Except.error _ => isFalse (by intro hh; cases hh)
  | Except.error _, Except.ok _ => isFalse (by intro hh; cases hh)

/-- str(e) of an exception, as interpolated into response details and tool error
texts. -/
def errMsg : PyError → String
  | PyError.http status detail => toString status ++ ": " ++ detail
  | PyError.valueError m => m
  | PyError.runtimeError m => m

/-- A compute device: `cpu`, or `cuda:i`. -/
inductive Device
  | cpu
  | cuda (i : Int)
deriving DecidableEq

/-- Whether the resolved device string contains "cuda" (main.py lines 125 and 156). -/
def Device.isCuda : Device → Bool
  | Device.cuda _ => true
  | Device.cpu => false

/-- Torch dtypes used by the construction (main.py line 125). -/
inductive DType
  | bfloat16
  | float32
deriving DecidableEq

/-- Where the constructed pipeline lives after step 4 of the construction:
not yet placed, accelerator-streamed via model cpu offload, or fully placed on one
device. -/
inductive Placement
  | unplaced
  | offloaded (gpu_id : Int)
  | placed (d : Device)
deriving DecidableEq

/-- The constructed pipeline object: what `ZImagePipeline.from_pretrained` returned,
tracked with the quantization and placement mutations applied to it. -/
structure Pipeline where
  model_id : String
  cache_dir : String
  dtype : DType
  transformer_quantized : Bool
  text_encoder_quantized : Bool
  vae_quantized : Bool
  placement : Placement
deriving DecidableEq

/-- Environment of the process: availability of the external collaborators and
injected failure outcomes for each fallible external call (a flag set means that
call raises when reached). -/
structure Env where
  cudaAvailable : Bool
  deviceCount : Nat
  zImageAvailable : Bool
  quantizeAvailable : Bool
  hasTextEncoder : Bool
  hasVae : Bool
  loadFails : Bool
  quantTransformerFails : Bool
  quantTextEncoderFails : Bool
  quantVaeFails : Bool
  placementFails : Bool
  cacheDirExists : Bool
  mkdirRaises : Bool
deriving DecidableEq

/-- An abstract raster image produced by the external inference engine. -/
abbrev Image : Type := Nat

/-- The module-level mutable state of main.py: the `model_config` dictionary, the
filesystem, the global `pipe` variable, the files written under `output/`, the
console log, and the two instrumentation counters. -/
structure AppState where
  config : RawConfig
  fs : Fs
  pipe : Option Pipeline
  outputFiles : List (String × Image)
  log : List LogEvent
  acquireCount : Nat
  constructionCount : Nat
deriving DecidableEq

/-- Result of the device/precision resolution step of the construction. -/
structure Resolved where
  gpu_id : Int
  device : Device
  dtype : DType
  config : RawConfig
  log : List LogEvent
deriving DecidableEq

/-- Device and dtype resolution inside get_pipeline (main.py lines 107-125): read
`gpu_device` with default 0; when CUDA is available and the index is outside
`[0, device_count)`, warn, fall back to 0 and write 0 into the in-memory
`model_config`; without CUDA select the cpu device.  bfloat16 exactly when a cuda
device was selected. -/
def resolveDevice (env : Env) (cfg : RawConfig) : Resolved :=
  let g : Int := cfg.gpu_device.getD 0
  if env.cudaAvailable then
    if g < 0 ∨ g ≥ (env.deviceCount : Int) then
      { gpu_id := 0, device := Device.cuda 0, dtype := DType.bfloat16,
        config := { cfg with gpu_device := some 0 },
        log := [LogEvent.gpuFallbackWarning g] }
    else
      { gpu_id := g, device := Device.cuda g, dtype := DType.bfloat16,
        config := cfg, log := [] }
  else
    { gpu_id := g, device := Device.cpu, dtype := DType.float32,
      config := cfg, log := [LogEvent.noCudaFallback] }

/-- The pipeline construction body (main.py lines 127-161), i.e. the part of the try
block from the `should_quantize` test through device placement.  The first component
is the outcome of the block; the second is the value the module-global `pipe`
variable holds when the block ends, which matters because the assignments to the
global `pipe` at lines 130 and 149 happen before the later fallible quantization and
placement calls: a failure after a successful `from_pretrained` leaves the partially
constructed object in the global.  `freeze` is folded into the corresponding
quantize step. -/
def construct_pipeline (env : Env) (cfg : RawConfig) (model_id cache_dir : String)
    (device : Device) (dtype : DType) (gpu_id : Int) :
    Except PyError Pipeline × Option Pipeline :=
  let base : Pipeline :=
    { model_id := model_id, cache_dir := cache_dir, dtype := dtype,
      transformer_quantized := false, text_encoder_quantized := false,
      vae_quantized := false, placement := Placement.unplaced }
  let should_quantize := cfg.fp8_quantization.getD false
  let loaded : Except PyError Pipeline × Option Pipeline :=
    if should_quantize ∧ env.quantizeAvailable then
      if env.loadFails then
        (Except.error (PyError.runtimeError "from_pretrained failed"), none)
      else if env.quantTransformerFails then
        (Except.error (PyError.runtimeError "quantize transformer failed"), some base)
      else
        let p1 := { base with transformer_quantized := true }
        if env.hasTextEncoder ∧ env.quantTextEncoderFails then
          (Except.error (PyError.runtimeError "quantize text_encoder failed"), some p1)
        else
          let p2 := if env.hasTextEncoder then { p1 with text_encoder_quantized := true } else p1
          if env.hasVae ∧ env.quantVaeFails then
            (Except.error (PyError.runtimeError "quantize vae failed"), some p2)
          else
            let p3 := if env.hasVae then { p2 with vae_quantized := true } else p2
            (Except.ok p3, some p3)
    else
      if env.loadFails then
        (Except.error (PyError.runtimeError "from_pretrained failed"), none)
      else (Except.ok base, some base)
  match loaded with
  | (Except.error e, gp) => (Except.error e, gp)
  | (Except.ok p, _) =>
    let placedP :=
      if cfg.cpu_offload.getD false ∧ device.isCuda then
        { p with placement := Placement.offloaded gpu_id }
      else
        { p with placement := Placement.placed device }
    if env.placementFails then
      (Except.error (PyError.runtimeError "device placement failed"), some p)
    else (Except.ok placedP, some placedP)

/-- get_pipeline (main.py lines 95-166).  Returns the cached global `pipe` when set.
Otherwise: raise HTTPException 500 when the ZImagePipeline class is unavailable;
raise KeyError when `model_config` lacks `model_id` or `cache_dir` (direct
subscripting at lines 101-104); then run the try block: resolve the device (possibly
correcting `gpu_device` in the in-memory config), construct, and on success install
the pipeline in the global.  On a failure inside the try block the exception is
printed and re-raised, and the global `pipe` keeps whatever the block assigned to it.
`acquireCount` is bumped at entry, `constructionCount` when the construction body
runs. -/
def get_pipeline (env : Env) (s : AppState) : Except PyError Pipeline × AppState :=
  let s := { s with acquireCount := s.acquireCount + 1 }
  match s.pipe with
  | some p => (Except.ok p, s)
  | none =>
    if env.zImageAvailable = false then
      (Except.error (PyError.http 500 "ZImagePipeline class not available. Install diffusers from source."), s)
    else
      match s.config.model_id, s.config.cache_dir with
      | some model_id, some cache_dir =>
        let s := { s with constructionCount := s.constructionCount + 1 }
        let r := resolveDevice env s.config
        let s := { s with config := r.config, log := s.log ++ r.log }
        match construct_pipeline env r.config model_id cache_dir r.device r.dtype r.gpu_id with
        | (Except.ok p, _) => (Except.ok p, { s with pipe := some p })
        | (Except.error e, gp) =>
          (Except.error e, { s with pipe := gp, log := s.log ++ [LogEvent.errorLoadingModel] })
      | _, _ => (Except.error (PyError.runtimeError "KeyError"), s)

/-- The body of the settings update endpoint (pydantic model SettingsRequest,
main.py lines 168-172), after defaulting: `cache_dir` is required, the other three
fields default to false / 0 / false. -/
structure SettingsRequest where
  cache_dir : String
  cpu_offload : Bool := false
  gpu_device : Int := 0
  fp8_quantization : Bool := false
deriving DecidableEq

/-- A settings-update payload as submitted on the wire: optional fields may be
absent. -/
structure SettingsPayload where
  cache_dir : String
  cpu_offload : Option Bool
  gpu_device : Option Int
  fp8_quantization : Option Bool
deriving DecidableEq

/-- Pydantic validation of a payload into a SettingsRequest: absent optional fields
take the declared defaults. -/
def parseSettingsRequest (p : SettingsPayload) : SettingsRequest :=
  { cache_dir := p.cache_dir
    cpu_offload := p.cpu_offload.getD false
    gpu_device := p.gpu_device.getD 0
    fp8_quantization := p.fp8_quantization.getD false }

/-- The four assignments of set_model_path into `model_config` (main.py lines
181-184); `model_id` is untouched. -/
def applySettings (cfg : RawConfig) (req : SettingsRequest) : RawConfig :=
  { cfg with
    cache_dir := some req.cache_dir
    cpu_offload := some req.cpu_offload
    gpu_device := some req.gpu_device
    fp8_quantization := some req.fp8_quantization }

/-- set_model_path (main.py lines 174-190): create the cache directory when given
and absent (an `os.makedirs` failure surfaces as HTTPException 500 with nothing
updated), then write the four fields into `model_config`, save the configuration
(save_config swallows its own failures), clear the global `pipe`, and acknowledge. -/
def set_model_path (env : Env) (req : SettingsRequest) (s : AppState) :
    Except PyError String × AppState :=
  if req.cache_dir ≠ "" ∧ env.cacheDirExists = false ∧ env.mkdirRaises then
    (Except.error (PyError.http 500 "makedirs failed"), s)
  else
    let cfg := applySettings s.config req
    (Except.ok "Settings saved. Model will reload on next generation.",
      { s with
        config := cfg, fs := (save_config cfg s.fs).1, pipe := none,
        log := s.log ++ (save_config cfg s.fs).2 })

/-- get_settings (main.py lines 203-205): return the current `model_config`
verbatim. -/
def get_settings (s : AppState) : RawConfig := s.config

/-- The random-number source the inference engine actually runs with: an explicit
`torch.Generator(device).manual_seed(seed)` when a seed was supplied, otherwise the
ambient process randomness (modelled by an entropy value outside the program). -/
inductive RngSource
  | seeded (device : Device) (seed : Int)
  | ambient (entropy : Nat)
deriving DecidableEq

/-- Everything the `pipeline(...)` inference call receives (main.py lines 237-244). -/
structure EngineInput where
  pipe : Pipeline
  prompt : Option String
  height : Int
  width : Int
  steps : Int
  guidance_scale : Rat
  rng : RngSource
deriving DecidableEq

/-- The device re-resolution inside generate_image_core (main.py lines 222-228):
same fallback-to-0 rule as the construction, but with no write into the
configuration. -/
def resolveGenDevice (env : Env) (cfg : RawConfig) : Device :=
  let g : Int := cfg.gpu_device.getD 0
  if env.cudaAvailable then
    if g < 0 ∨ g ≥ (env.deviceCount : Int) then Device.cuda 0 else Device.cuda g
  else Device.cpu

/-- generate_image_core (main.py lines 215-261).  Validate divisibility of both
dimensions by 16 (ValueError) before anything else; acquire the pipeline; re-resolve
the device; build the seeded generator unless `seed = -1`; run the engine; write the
image under `output/` with a timestamp + unique-id name; return the base64 PNG
encoding of the image.  `engine` is the external inference call, `pngB64` the
composition of PNG encoding and base64; `entropy`, `timestamp` and `uid` are the
ambient randomness, `datetime.now()` and `uuid4` values of this run. -/
def generate_image_core (env : Env) (engine : EngineInput → Image) (pngB64 : Image → String)
    (entropy : Nat) (timestamp uid : String)
    (prompt : Option String) (height width steps : Int) (guidance_scale : Rat) (seed : Int)
    (s : AppState) : Except PyError String × AppState :=
  if height % 16 ≠ 0 ∨ width % 16 ≠ 0 then
    (Except.error (PyError.valueError "Height and Width must be divisible by 16."), s)
  else
    match get_pipeline env s with
    | (Except.error e, s1) => (Except.error e, s1)
    | (Except.ok p, s1) =>
      let device := resolveGenDevice env s1.config
      let rng := if seed = -1 then RngSource.ambient entropy else RngSource.seeded device seed
      let img := engine
        { pipe := p, prompt := prompt, height := height, width := width,
          steps := steps, guidance_scale := guidance_scale, rng := rng }
      let filename := timestamp ++ "_" ++ uid ++ ".png"
      (Except.ok (pngB64 img),
        { s1 with outputFiles := s1.outputFiles ++ [("output/" ++ filename, img)] })

/-- The HTTP generation request (pydantic model GenerateRequest, main.py lines
207-213), after defaulting; `prompt` is required. -/
structure GenerateRequest where
  prompt : String
  height : Int := 1024
  width : Int := 1024
  steps : Int := 8
  guidance_scale : Rat := 0
  seed : Int := -1
deriving DecidableEq

/-- The /generate endpoint (main.py lines 263-272): run the core; wrap success in a
data URL; map ValueError to HTTPException 400 and every other exception to
HTTPException 500, each carrying the message. -/
def generate_image (env : Env) (engine : EngineInput → Image) (pngB64 : Image → String)
    (entropy : Nat) (timestamp uid : String) (req : GenerateRequest) (s : AppState) :
    Except PyError String × AppState :=
  match generate_image_core env engine pngB64 entropy timestamp uid (some req.prompt)
      req.height req.width req.steps req.guidance_scale req.seed s with
  | (Except.ok img, s1) => (Except.ok ("data:image/png;base64," ++ img), s1)
  | (Except.error (PyError.valueError m), s1) => (Except.error (PyError.http 400 m), s1)
  | (Except.error e, s1) => (Except.error (PyError.http 500 (errMsg e)), s1)

/-- Tool-call arguments as received by call_tool: every field is looked up with
`arguments.get`, so every field may be absent (including the prompt). -/
structure ToolArgs where
  prompt : Option String
  height : Option Int
  width : Option Int
  steps : Option Int
  guidance_scale : Option Rat
  seed : Option Int
deriving DecidableEq

/-- MCP content blocks returned by call_tool (mimeType recorded for image
content). -/
inductive ContentBlock
  | image (data : String) (mimeType : String)
  | text (t : String)
deriving DecidableEq

/-- call_tool (main.py lines 295-321): for the "generate-image" tool, read the
arguments with their defaults and run the core generation (dispatched to a worker
thread; modelled as a direct call).  A success becomes an image content block with
MIME type image/png; any exception becomes a text content block carrying the
message.  An unknown tool name raises ValueError. -/
def call_tool (env : Env) (engine : EngineInput → Image) (pngB64 : Image → String)
    (entropy : Nat) (timestamp uid : String) (name : String) (args : ToolArgs)
    (s : AppState) : Except PyError (List ContentBlock) × AppState :=
  if name = "generate-image" then
    match generate_image_core env engine pngB64 entropy timestamp uid args.prompt
        (args.height.getD 1024) (args.width.getD 1024) (args.steps.getD 8)
        (args.guidance_scale.getD 0) (args.seed.getD (-1)) s with
    | (Except.ok b, s1) => (Except.ok [ContentBlock.image b "image/png"], s1)
    | (Except.error e, s1) =>
      (Except.ok [ContentBlock.text ("Error generating image: " ++ errMsg e)], s1)
  else (Except.error (PyError.valueError ("Unknown tool: " ++ name)), s)

/-! Concrete fixtures used by the witnesses and counterexamples below. -/

/-- A fully populated configuration with a valid device index and quantization on. -/
def fullCfg : RawConfig :=
  { cache_dir := some "", model_id := some "Tongyi-MAI/Z-Image-Turbo",
    gpu_device := some 0, cpu_offload := some false, fp8_quantization := some true }

/-- One CUDA device, all collaborators present, every external call succeeding. -/
def envOk : Env :=
  { cudaAvailable := true, deviceCount := 1, zImageAvailable := true,
    quantizeAvailable := true, hasTextEncoder := true, hasVae := true,
    loadFails := false, quantTransformerFails := false, quantTextEncoderFails := false,
    quantVaeFails := false, placementFails := false, cacheDirExists := true,
    mkdirRaises := false }

/-- Same environment but the quantization of the transformer raises. -/
def envQF : Env := { envOk with quantTransformerFails := true }

/-- CPU-only environment (no CUDA devices), quanto not installed. -/
def envCpu : Env := { envOk with cudaAvailable := false, deviceCount := 0, quantizeAvailable := false }

/-- Fresh module state holding `fullCfg`, no pipeline constructed yet. -/
def st0 : AppState :=
  { config := fullCfg,
    fs := { config_file := some (some fullCfg), writable := true, openFails := false },
    pipe := none, outputFiles := [], log := [], acquireCount := 0, constructionCount := 0 }

/-- The pipeline object from_pretrained returns in `envQF` before any quantization
or placement step has run. -/
def basePipeQF : Pipeline :=
  { model_id := "Tongyi-MAI/Z-Image-Turbo", cache_dir := "", dtype := DType.bfloat16,
    transformer_quantized := false, text_encoder_quantized := false,
    vae_quantized := false, placement := Placement.unplaced }

/-- Configuration whose device index 5 is out of range for a 1-device machine. -/
def cfg5 : RawConfig := { fullCfg with gpu_device := some 5, fp8_quantization := some false }

/-- Module state loaded from a persisted file holding `cfg5`. -/
def st5 : AppState :=
  { config := cfg5,
    fs := { config_file := some (some cfg5), writable := true, openFails := false },
    pipe := none, outputFiles := [], log := [], acquireCount := 0, constructionCount := 0 }

/-- A persisted dictionary written before the cpu_offload / fp8_quantization fields
existed. -/
def legacyCfg : RawConfig :=
  { cache_dir := some "", model_id := some "m", gpu_device := some 0,
    cpu_offload := none, fp8_quantization := none }

/-- An already constructed CPU pipeline. -/
def readyPipe : Pipeline :=
  { model_id := "Tongyi-MAI/Z-Image-Turbo", cache_dir := "", dtype := DType.float32,
    transformer_quantized := false, text_encoder_quantized := false,
    vae_quantized := false, placement := Placement.placed Device.cpu }

/-- Module state with `readyPipe` already installed. -/
def stReady : AppState :=
  { config := fullCfg,
    fs := { config_file := some (some fullCfg), writable := true, openFails := false },
    pipe := some readyPipe, outputFiles := [], log := [], acquireCount := 0,
    constructionCount := 0 }

/-- A settings payload that omits cpu_offload and fp8_quantization. -/
def payload0 : SettingsPayload :=
  { cache_dir := "/tmp/cache", cpu_offload := none, gpu_device := some 1,
    fp8_quantization := none }

/-- A settings request resubmitting values equal to what st0 already holds. -/
def req0 : SettingsRequest :=
  { cache_dir := "", cpu_offload := false, gpu_device := 0, fp8_quantization := true }

/-- Tool arguments with a height that is not a multiple of 16. -/
def args1 : ToolArgs :=
  { prompt := some "x", height := some 100, width := none, steps := none,
    guidance_scale := none, seed := none }

/-- Tool arguments omitting every field, the prompt included. -/
def args2 : ToolArgs :=
  { prompt := none, height := none, width := none, steps := none,
    guidance_scale := none, seed := none }

/-! Helper lemmas shared by the claim theorems. -/

/-- Every failure the construction body can produce is a runtime error of an
external call; the body never raises ValueError. -/
theorem construct_pipeline_not_valueError (env : Env) (cfg : RawConfig)
    (model_id cache_dir : String) (device : Device) (dtype : DType) (gpu_id : Int)
    (m : String) :
    (construct_pipeline env cfg model_id cache_dir device dtype gpu_id).1 ≠
      Except.error (PyError.valueError m) := by
  unfold construct_pipeline
  dsimp only
  split <;> rename_i heq
  · repeat' split at heq
    all_goals try simp_all
    all_goals (rcases heq with ⟨he, -⟩; subst he; simp)
  · split <;> simp

/-- get_pipeline never raises ValueError: its failures are the HTTPException for a
missing pipeline class, a KeyError, or a runtime error of an external call. -/
theorem get_pipeline_not_valueError (env : Env) (s : AppState) (m : String) :
    (get_pipeline env s).1 ≠ Except.error (PyError.valueError m) := by
  unfold get_pipeline
  dsimp only
  split
  · simp
  · split
    · simp
    · split
      · split <;> rename_i heq
        · simp
        · intro hc
          simp only [Prod.fst] at hc
          cases hc
          exact construct_pipeline_not_valueError _ _ _ _ _ _ _ m (by rw [heq])
      · simp

/-- When the global pipe is set, get_pipeline returns it and only bumps the
acquisition counter. -/
theorem get_pipeline_cached (env : Env) (s : AppState) (p : Pipeline)
    (hp : s.pipe = some p) :
    get_pipeline env s = (Except.ok p, { s with acquireCount := s.acquireCount + 1 }) := by
  unfold get_pipeline
  dsimp only
  split <;> rename_i h
  · rw [hp] at h
    cases h
    rfl
  · rw [hp] at h
    cases h

/-- C1: the claim says a construction failure leaves no pipeline handle installed and
a subsequent acquire retries from scratch.  The code violates this: when
`from_pretrained` succeeds and a later step raises (here: quantization of the
transformer), the raised error propagates but the module-global `pipe` already holds
the partially constructed pipeline, so the next acquire returns that partial object
without any reconstruction (the construction counter stays at 1). -/
theorem c1_failed_construction_leaves_partial_handle :
    (get_pipeline envQF st0).1 = Except.error (PyError.runtimeError "quantize transformer failed") ∧
    (get_pipeline envQF st0).2.pipe = some basePipeQF ∧
    (get_pipeline envQF (get_pipeline envQF st0).2).1 = Except.ok basePipeQF ∧
    (get_pipeline envQF (get_pipeline envQF st0).2).2.constructionCount = 1 := by
  refine ⟨rfl, rfl, rfl, rfl⟩

/-- C4 counterexample: a persisted configuration written before the `cpu_offload`
field existed is backfilled with `false`, not with the documented load default
`true`; the claim that the backfill uses the same documented default is false. -/
theorem c4_legacy_cpu_offload_counterexample :
    (initialModelConfig (some (some legacyCfg))).cpu_offload = some false ∧
    (initialModelConfig (some (some legacyCfg))).cpu_offload ≠ defaultConfig.cpu_offload := by
  refine ⟨rfl, by decide⟩

/-- C4 amended: load_config returns the documented default configuration
(cache_dir empty, the fixed model identifier, gpu_device 1, cpu_offload true,
fp8_quantization true) on a missing file and on a parse failure, without raising;
the backfill fills a missing `fp8_quantization` with the documented default `true`
but fills a missing `cpu_offload` with `false`, which differs from the load default. -/
theorem c4_load_defaults_and_backfill (r : RawConfig) :
    load_config none = defaultConfig ∧
    load_config (some none) = defaultConfig ∧
    defaultConfig.cache_dir = some "" ∧
    defaultConfig.model_id = some "Tongyi-MAI/Z-Image-Turbo" ∧
    defaultConfig.gpu_device = some 1 ∧
    defaultConfig.cpu_offload = some true ∧
    defaultConfig.fp8_quantization = some true ∧
    (r.fp8_quantization = none →
      (initialModelConfig (some (some r))).fp8_quantization = some true) ∧
    (r.cpu_offload = none →
      (initialModelConfig (some (some r))).cpu_offload = some false) := by
  refine ⟨rfl, rfl, rfl, rfl, rfl, rfl, rfl, ?_, ?_⟩
  · intro h
    simp only [initialModelConfig, load_config]
    split <;> simp_all
  · intro h
    simp only [initialModelConfig, load_config]
    split <;> simp_all
    split <;> simp_all

/-- Witness for c4_load_defaults_and_backfill at the concrete legacy dictionary. -/
theorem c4_load_defaults_and_backfill_witness :
    legacyCfg.fp8_quantization = none ∧ legacyCfg.cpu_offload = none ∧
    (initialModelConfig (some (some legacyCfg))).fp8_quantization = some true ∧
    (initialModelConfig (some (some legacyCfg))).cpu_offload = some false :=
  ⟨rfl, rfl, (c4_load_defaults_and_backfill legacyCfg).2.2.2.2.2.2.2.1 rfl,
    (c4_load_defaults_and_backfill legacyCfg).2.2.2.2.2.2.2.2 rfl⟩

/-- C7 counterexample: the write of save_config is not atomic from a reader
perspective.  The observable file contents during the in-place truncate-then-write
include the empty content, which is neither the old persisted text nor the new
serialized configuration. -/
theorem c7_save_not_atomic_counterexample :
    ¬ (∀ c ∈ save_config_write_trace defaultConfig "old",
        c = "old" ∨ c = jsonDump defaultConfig) := by
  intro h
  have hm : "" ∈ save_config_write_trace defaultConfig "old" := by
    unfold save_config_write_trace
    refine List.mem_cons.mpr (Or.inr (List.mem_map.mpr ⟨0, ?_, ?_⟩))
    · simp
    · decide
  rcases h "" hm with h1 | h1
  · exact absurd h1 (by decide)
  · exact absurd h1 (by decide)

/-- C7 amended: save_config never raises — every write failure is logged and
swallowed — but the overwrite is not atomic: it truncates config.json in place and
then writes, so a concurrently scheduled reader can observe an empty or partially
written file (see the counterexample), and a failure of the write itself is equally
non-atomic: only when the open itself fails is the previous file left intact, while
a dump failure after the truncation leaves the file truncated and unparsable rather
than holding the previous content.  When the write succeeds the persisted
configuration is replaced by the new one. -/
theorem c7_save_never_raises (config : RawConfig) (fs : Fs) :
    (fs.writable = true →
      save_config config fs = ({ fs with config_file := some (some config) }, [])) ∧
    (fs.writable = false → fs.openFails = true →
      save_config config fs = (fs, [LogEvent.errorSavingConfig])) ∧
    (fs.writable = false → fs.openFails = false →
      save_config config fs =
        ({ fs with config_file := some none }, [LogEvent.errorSavingConfig])) := by
  refine ⟨fun h => by simp [save_config, h], fun h h2 => by simp [save_config, h, h2],
    fun h h2 => by simp [save_config, h, h2]⟩

/-- Witness for c7_save_never_raises at a concrete filesystem in all three modes:
successful write, failing open (file intact), failing dump (file truncated to an
unparsable state). -/
theorem c7_save_never_raises_witness :
    save_config defaultConfig
        { config_file := some (some legacyCfg), writable := true, openFails := false } =
      ({ config_file := some (some defaultConfig), writable := true, openFails := false },
        []) ∧
    save_config defaultConfig
        { config_file := some (some legacyCfg), writable := false, openFails := true } =
      ({ config_file := some (some legacyCfg), writable := false, openFails := true },
        [LogEvent.errorSavingConfig]) ∧
    save_config defaultConfig
        { config_file := some (some legacyCfg), writable := false, openFails := false } =
      ({ config_file := some none, writable := false, openFails := false },
        [LogEvent.errorSavingConfig]) :=
  ⟨(c7_save_never_raises defaultConfig
      { config_file := some (some legacyCfg), writable := true, openFails := false }).1 rfl,
    (c7_save_never_raises defaultConfig
      { config_file := some (some legacyCfg), writable := false, openFails := true }).2.1
      rfl rfl,
    (c7_save_never_raises defaultConfig
      { config_file := some (some legacyCfg), writable := false, openFails := false }).2.2
      rfl rfl⟩

/-- C3 counterexample: with a persisted device index 5 on a 1-device machine,
construction corrects the in-memory index to 0 but never writes the persisted
configuration file, so a future load still returns index 5 — the claim that the
corrected index is persisted for future loads to reuse is false. -/
theorem c3_corrected_index_not_persisted :
    (get_pipeline envOk st5).2.config.gpu_device = some 0 ∧
    (load_config (get_pipeline envOk st5).2.fs.config_file).gpu_device = some 5 ∧
    (load_config (get_pipeline envOk st5).2.fs.config_file).gpu_device ≠ some 0 := by
  refine ⟨rfl, rfl, by decide⟩

/-- C3 amended: with CUDA present and the configured index out of `[0, deviceCount)`,
construction emits the warning, resolves to device 0, and records the corrected
index in the in-memory configuration — so a subsequent settings read reflects
device 0 — but the persisted configuration file is left untouched. -/
theorem c3_gpu_fallback_in_memory (env : Env) (s : AppState) (mid cd : String)
    (hp : s.pipe = none) (hz : env.zImageAvailable = true)
    (hcuda : env.cudaAvailable = true)
    (hmid : s.config.model_id = some mid) (hcd : s.config.cache_dir = some cd)
    (hg : s.config.gpu_device.getD 0 < 0 ∨
      s.config.gpu_device.getD 0 ≥ (env.deviceCount : Int)) :
    (get_settings (get_pipeline env s).2).gpu_device = some 0 ∧
    LogEvent.gpuFallbackWarning (s.config.gpu_device.getD 0) ∈ (get_pipeline env s).2.log ∧
    (get_pipeline env s).2.fs = s.fs ∧
    (resolveDevice env s.config).device = Device.cuda 0 := by
  have hres : resolveDevice env s.config =
      { gpu_id := 0, device := Device.cuda 0, dtype := DType.bfloat16,
        config := { s.config with gpu_device := some 0 },
        log := [LogEvent.gpuFallbackWarning (s.config.gpu_device.getD 0)] } := by
    simp [resolveDevice, hcuda, hg]
  unfold get_pipeline
  dsimp only
  rw [hp]
  dsimp only
  simp only [hz]
  rw [if_neg (by simp)]
  rw [hmid, hcd]
  dsimp only
  rw [hres]
  split <;> rename_i heq <;> simp [get_settings]

/-- Witness for c3_gpu_fallback_in_memory at the concrete out-of-range state. -/
theorem c3_gpu_fallback_in_memory_witness :
    st5.pipe = none ∧
    (st5.config.gpu_device.getD 0 < 0 ∨
      st5.config.gpu_device.getD 0 ≥ (envOk.deviceCount : Int)) ∧
    ((get_settings (get_pipeline envOk st5).2).gpu_device = some 0 ∧
      LogEvent.gpuFallbackWarning (st5.config.gpu_device.getD 0) ∈ (get_pipeline envOk st5).2.log ∧
      (get_pipeline envOk st5).2.fs = st5.fs ∧
      (resolveDevice envOk st5.config).device = Device.cuda 0) :=
  ⟨rfl, by decide,
    c3_gpu_fallback_in_memory envOk st5 "Tongyi-MAI/Z-Image-Turbo" "" rfl rfl rfl rfl rfl
      (by decide)⟩

/-- C2: a request whose height or width is not a multiple of 16 makes
generate_image_core raise the ValueError immediately, with the module state
returned exactly as it was — the pipeline is never acquired (the acquisition
counter is untouched) and no output file is written — and the HTTP front-end maps
that failure to HTTPException 400. -/
theorem c2_invalid_dims_rejected_before_acquire (env : Env) (engine : EngineInput → Image)
    (pngB64 : Image → String) (entropy : Nat) (timestamp uid : String)
    (req : GenerateRequest) (s : AppState)
    (hbad : ¬ (req.height % 16 = 0 ∧ req.width % 16 = 0)) :
    generate_image_core env engine pngB64 entropy timestamp uid (some req.prompt)
        req.height req.width req.steps req.guidance_scale req.seed s =
      (Except.error (PyError.valueError "Height and Width must be divisible by 16."), s) ∧
    (generate_image env engine pngB64 entropy timestamp uid req s).1 =
      Except.error (PyError.http 400 "Height and Width must be divisible by 16.") := by
  have h1 : generate_image_core env engine pngB64 entropy timestamp uid (some req.prompt)
      req.height req.width req.steps req.guidance_scale req.seed s =
      (Except.error (PyError.valueError "Height and Width must be divisible by 16."), s) := by
    unfold generate_image_core
    rw [if_pos (not_and_or.mp hbad)]
  refine ⟨h1, ?_⟩
  unfold generate_image
  rw [h1]

/-- Witness for c2_invalid_dims_rejected_before_acquire at height 100. -/
theorem c2_invalid_dims_rejected_before_acquire_witness :
    ¬ ((100 : Int) % 16 = 0 ∧ (512 : Int) % 16 = 0) ∧
    (generate_image_core envOk (fun _ => (0 : Image)) (fun _ => "png") 0 "t" "u"
        (some "a red cube") 100 512 8 0 (-1) st0 =
      (Except.error (PyError.valueError "Height and Width must be divisible by 16."), st0) ∧
    (generate_image envOk (fun _ => (0 : Image)) (fun _ => "png") 0 "t" "u"
        { prompt := "a red cube", height := 100, width := 512 } st0).1 =
      Except.error (PyError.http 400 "Height and Width must be divisible by 16.")) :=
  ⟨by decide,
    c2_invalid_dims_rejected_before_acquire envOk (fun _ => (0 : Image)) (fun _ => "png")
      0 "t" "u" { prompt := "a red cube", height := 100, width := 512 } st0 (by decide)⟩

/-- C5: a successful settings update followed immediately by a settings read returns
exactly the submitted values for the four updated fields, with optional fields
absent from the payload taking the declared defaults (cpu_offload false,
gpu_device 0, fp8_quantization false). -/
theorem c5_settings_roundtrip (env : Env) (p : SettingsPayload) (s s1 : AppState)
    (msg : String)
    (h : set_model_path env (parseSettingsRequest p) s = (Except.ok msg, s1)) :
    (get_settings s1).cache_dir = some p.cache_dir ∧
    (get_settings s1).cpu_offload = some (p.cpu_offload.getD false) ∧
    (get_settings s1).gpu_device = some (p.gpu_device.getD 0) ∧
    (get_settings s1).fp8_quantization = some (p.fp8_quantization.getD false) := by
  unfold set_model_path at h
  split at h
  · cases h
  · injection h with h1 h2
    subst h2
    simp [get_settings, applySettings, parseSettingsRequest]

/-- Witness for c5_settings_roundtrip at the concrete payload. -/
theorem c5_settings_roundtrip_witness :
    (get_settings (set_model_path envOk (parseSettingsRequest payload0) st0).2).cache_dir =
      some payload0.cache_dir ∧
    (get_settings (set_model_path envOk (parseSettingsRequest payload0) st0).2).cpu_offload =
      some (payload0.cpu_offload.getD false) ∧
    (get_settings (set_model_path envOk (parseSettingsRequest payload0) st0).2).gpu_device =
      some (payload0.gpu_device.getD 0) ∧
    (get_settings (set_model_path envOk (parseSettingsRequest payload0) st0).2).fp8_quantization =
      some (payload0.fp8_quantization.getD false) :=
  c5_settings_roundtrip envOk payload0 st0
    (set_model_path envOk (parseSettingsRequest payload0) st0).2
    "Settings saved. Model will reload on next generation." rfl

/-- C6: a successful settings update clears the pipeline handle and persists the new
configuration (when the file is writable; a write failure is swallowed by
save_config) without constructing anything synchronously, and the next generation
request with valid dimensions afterwards runs a full construction — the
construction counter increments — even when the submitted values equal the previous
configuration. -/
theorem c6_update_invalidates_pipeline (env env2 : Env) (req : SettingsRequest)
    (s s1 : AppState) (msg mid : String)
    (h : set_model_path env req s = (Except.ok msg, s1))
    (hz : env2.zImageAvailable = true)
    (hmid : s.config.model_id = some mid) :
    s1.pipe = none ∧
    s1.constructionCount = s.constructionCount ∧
    (s.fs.writable = true → s1.fs.config_file = some (some (applySettings s.config req))) ∧
    (∀ (engine : EngineInput → Image) (pngB64 : Image → String) (entropy : Nat)
      (timestamp uid : String) (prompt : Option String) (height width steps : Int)
      (gs : Rat) (seed : Int), height % 16 = 0 → width % 16 = 0 →
      (generate_image_core env2 engine pngB64 entropy timestamp uid prompt
          height width steps gs seed s1).2.constructionCount =
        s.constructionCount + 1) := by
  unfold set_model_path at h
  split at h
  · cases h
  · injection h with h1 h2
    subst h2
    have hgp : ∀ (r : Except PyError Pipeline) (s2 : AppState),
        get_pipeline env2
          { s with
            config := applySettings s.config req,
            fs := (save_config (applySettings s.config req) s.fs).1, pipe := none,
            log := s.log ++ (save_config (applySettings s.config req) s.fs).2 } = (r, s2) →
        s2.constructionCount = s.constructionCount + 1 := by
      intro r s2 hr
      unfold get_pipeline at hr
      dsimp only at hr
      rw [hz] at hr
      rw [if_neg (by simp)] at hr
      simp only [applySettings] at hr
      try dsimp only at hr
      rw [hmid] at hr
      try dsimp only at hr
      split at hr <;> injection hr with hr1 hr2 <;> subst hr2 <;> rfl
    refine ⟨rfl, rfl, ?_, ?_⟩
    · intro hw
      simp [save_config, hw]
    · intro engine pngB64 entropy timestamp uid prompt height width steps gs seed h16 w16
      unfold generate_image_core
      rw [if_neg (by simp [h16, w16])]
      split <;> rename_i p s2 heq
      all_goals first
        | exact hgp _ _ heq
        | (dsimp only; exact hgp _ _ heq)

/-- Witness for c6_update_invalidates_pipeline: resubmitting the values st0 already
holds still clears the pipe and makes the next valid generation construct. -/
theorem c6_update_invalidates_pipeline_witness :
    set_model_path envOk req0 st0 =
      (Except.ok "Settings saved. Model will reload on next generation.",
        (set_model_path envOk req0 st0).2) ∧
    envOk.zImageAvailable = true ∧
    st0.config.model_id = some "Tongyi-MAI/Z-Image-Turbo" ∧
    ((set_model_path envOk req0 st0).2.pipe = none ∧
      (set_model_path envOk req0 st0).2.constructionCount = st0.constructionCount ∧
      (st0.fs.writable = true →
        (set_model_path envOk req0 st0).2.fs.config_file =
          some (some (applySettings st0.config req0))) ∧
      (∀ (engine : EngineInput → Image) (pngB64 : Image → String) (entropy : Nat)
        (timestamp uid : String) (prompt : Option String) (height width steps : Int)
        (gs : Rat) (seed : Int), height % 16 = 0 → width % 16 = 0 →
        (generate_image_core envOk engine pngB64 entropy timestamp uid prompt
            height width steps gs seed (set_model_path envOk req0 st0).2).2.constructionCount =
          st0.constructionCount + 1)) :=
  ⟨rfl, rfl, rfl,
    c6_update_invalidates_pipeline envOk envOk req0 st0 (set_model_path envOk req0 st0).2
      "Settings saved. Model will reload on next generation." "Tongyi-MAI/Z-Image-Turbo"
      rfl rfl rfl⟩

/-- Two runs of generate_image_core that differ only in ambient entropy, timestamp
and unique id return the same first component when an explicit seed is supplied:
the generator pins the randomness and the run-specific values only name the output
file. -/
theorem generate_core_result_run_invariant (env : Env) (engine : EngineInput → Image)
    (pngB64 : Image → String) (e1 e2 : Nat) (t1 u1 t2 u2 : String)
    (prompt : Option String) (height width steps : Int) (gs : Rat) (seed : Int)
    (s : AppState) (hseed : seed ≠ -1) :
    (generate_image_core env engine pngB64 e1 t1 u1 prompt height width steps gs seed s).1 =
    (generate_image_core env engine pngB64 e2 t2 u2 prompt height width steps gs seed s).1 := by
  unfold generate_image_core
  split
  · rfl
  · cases hgp : get_pipeline env s with
  | mk r s1 => cases r <;> simp [hseed]

/-- C8: with a seed other than -1, two successful runs of generate_image_core from
the same module state, configuration and engine produce identical encoded payloads,
whatever ambient entropy, timestamp and unique id each run drew: the device-scoped
generator seeded with s is supplied to the engine in both runs.  (With seed = -1 the
engine runs on ambient entropy and no equality is claimed.) -/
theorem c8_seeded_generation_deterministic (env : Env) (engine : EngineInput → Image)
    (pngB64 : Image → String) (e1 e2 : Nat) (t1 u1 t2 u2 : String)
    (prompt : Option String) (height width steps : Int) (gs : Rat) (seed : Int)
    (s : AppState) (y1 y2 : String)
    (hseed : seed ≠ -1)
    (h1 : (generate_image_core env engine pngB64 e1 t1 u1 prompt height width steps gs
      seed s).1 = Except.ok y1)
    (h2 : (generate_image_core env engine pngB64 e2 t2 u2 prompt height width steps gs
      seed s).1 = Except.ok y2) :
    y1 = y2 := by
  have hinv := generate_core_result_run_invariant env engine pngB64 e1 e2 t1 u1 t2 u2
    prompt height width steps gs seed s hseed
  rw [h1, h2] at hinv
  injection hinv

/-- Witness for c8_seeded_generation_deterministic: seed 42 on a CPU-only run with
the pipeline installed, two different entropies, timestamps and ids. -/
theorem c8_seeded_generation_deterministic_witness :
    (42 : Int) ≠ -1 ∧
    (generate_image_core envCpu (fun _ => (0 : Image)) (fun _ => "payload") 1 "t1" "u1"
      (some "a red cube") 512 512 4 0 42 stReady).1 = Except.ok "payload" ∧
    (generate_image_core envCpu (fun _ => (0 : Image)) (fun _ => "payload") 2 "t2" "u2"
      (some "a red cube") 512 512 4 0 42 stReady).1 = Except.ok "payload" ∧
    "payload" = "payload" :=
  ⟨by decide, rfl, rfl,
    c8_seeded_generation_deterministic envCpu (fun _ => (0 : Image)) (fun _ => "payload")
      1 2 "t1" "u1" "t2" "u2" (some "a red cube") 512 512 4 0 42 stReady
      "payload" "payload" (by decide) rfl rfl⟩

/-- C9: for the "generate-image" tool, call_tool converts any failure of the
underlying generation call into a textual error content item carrying the message
(returned normally, not raised), and wraps a success into an image content item
with MIME type image/png carrying the encoded payload. -/
theorem c9_call_tool_wraps_generation (env : Env) (engine : EngineInput → Image)
    (pngB64 : Image → String) (entropy : Nat) (timestamp uid : String)
    (args : ToolArgs) (s : AppState) :
    (∀ e s1, generate_image_core env engine pngB64 entropy timestamp uid args.prompt
        (args.height.getD 1024) (args.width.getD 1024) (args.steps.getD 8)
        (args.guidance_scale.getD 0) (args.seed.getD (-1)) s = (Except.error e, s1) →
      call_tool env engine pngB64 entropy timestamp uid "generate-image" args s =
        (Except.ok [ContentBlock.text ("Error generating image: " ++ errMsg e)], s1)) ∧
    (∀ b s1, generate_image_core env engine pngB64 entropy timestamp uid args.prompt
        (args.height.getD 1024) (args.width.getD 1024) (args.steps.getD 8)
        (args.guidance_scale.getD 0) (args.seed.getD (-1)) s = (Except.ok b, s1) →
      call_tool env engine pngB64 entropy timestamp uid "generate-image" args s =
        (Except.ok [ContentBlock.image b "image/png"], s1)) := by
  constructor <;> intro x s1 hx <;> unfold call_tool <;> rw [if_pos rfl, hx]

/-- Witness for c9_call_tool_wraps_generation: a failing call (height 100) yields the
textual error item; a successful call (all arguments defaulted, prompt absent)
yields the image item. -/
theorem c9_call_tool_wraps_generation_witness :
    call_tool envOk (fun _ => (0 : Image)) (fun _ => "payload") 0 "t" "u"
        "generate-image" args1 st0 =
      (Except.ok [ContentBlock.text
        "Error generating image: Height and Width must be divisible by 16."], st0) ∧
    call_tool envCpu (fun _ => (0 : Image)) (fun _ => "payload") 0 "t" "u"
        "generate-image" args2 stReady =
      (Except.ok [ContentBlock.image "payload" "image/png"],
        (generate_image_core envCpu (fun _ => (0 : Image)) (fun _ => "payload") 0 "t" "u"
          none 1024 1024 8 0 (-1) stReady).2) :=
  ⟨(c9_call_tool_wraps_generation envOk (fun _ => (0 : Image)) (fun _ => "payload")
      0 "t" "u" args1 st0).1
      (PyError.valueError "Height and Width must be divisible by 16.") st0 rfl,
    (c9_call_tool_wraps_generation envCpu (fun _ => (0 : Image)) (fun _ => "payload")
      0 "t" "u" args2 stReady).2 "payload"
      (generate_image_core envCpu (fun _ => (0 : Image)) (fun _ => "payload") 0 "t" "u"
        none 1024 1024 8 0 (-1) stReady).2 rfl⟩

/-- C10: divisibility of height and width by 16 is the only validation
generate_image_core performs.  It returns the ValueError exactly when a dimension is
not a multiple of 16; and whenever both dimensions are multiples of 16 and a
pipeline is installed, the remaining fields — the prompt even when absent or empty,
any step count, any guidance scale, any seed — are forwarded to the engine
unchanged, with the seeded generator built for every seed other than -1. -/
theorem c10_divisibility_only_validation (env : Env) (engine : EngineInput → Image)
    (pngB64 : Image → String) (entropy : Nat) (timestamp uid : String)
    (prompt : Option String) (height width steps : Int) (gs : Rat) (seed : Int)
    (s : AppState) :
    ((∃ m s1, generate_image_core env engine pngB64 entropy timestamp uid prompt
        height width steps gs seed s = (Except.error (PyError.valueError m), s1)) ↔
      ¬ (height % 16 = 0 ∧ width % 16 = 0)) ∧
    (∀ p, s.pipe = some p → height % 16 = 0 → width % 16 = 0 →
      (generate_image_core env engine pngB64 entropy timestamp uid prompt
          height width steps gs seed s).1 =
        Except.ok (pngB64 (engine
          { pipe := p, prompt := prompt, height := height, width := width,
            steps := steps, guidance_scale := gs,
            rng := if seed = -1 then RngSource.ambient entropy
              else RngSource.seeded (resolveGenDevice env s.config) seed }))) := by
  constructor
  · constructor
    · rintro ⟨m, s1, hm⟩ hdiv
      unfold generate_image_core at hm
      rw [if_neg (by simp [hdiv.1, hdiv.2])] at hm
      cases hgp : get_pipeline env s with
      | mk r s2 =>
        rw [hgp] at hm
        cases r with
        | ok p => exact absurd hm (by simp)
        | error e =>
          injection hm with hm1 hm2
          injection hm1 with hm1
          subst hm1
          exact get_pipeline_not_valueError env s m (by rw [hgp])
    · intro hbad
      refine ⟨"Height and Width must be divisible by 16.", s, ?_⟩
      unfold generate_image_core
      rw [if_pos (not_and_or.mp hbad)]
  · intro p hp h16 w16
    have hgp := get_pipeline_cached env s p hp
    unfold generate_image_core
    rw [if_neg (by simp [h16, w16]), hgp]

/-- Witness for c10_divisibility_only_validation: an absent prompt, negative step
count, negative guidance scale and seed 7 all reach the engine once the dimensions
divide by 16; and height 100 yields the ValueError. -/
theorem c10_divisibility_only_validation_witness :
    stReady.pipe = some readyPipe ∧ (512 : Int) % 16 = 0 ∧
    (generate_image_core envCpu (fun _ => (0 : Image)) (fun _ => "payload") 0 "t" "u"
        none 512 512 (-3) (-1) 7 stReady).1 = Except.ok "payload" ∧
    (∃ m s1, generate_image_core envCpu (fun _ => (0 : Image)) (fun _ => "payload") 0 "t" "u"
        none 100 512 (-3) (-1) 7 stReady = (Except.error (PyError.valueError m), s1)) := by
  refine ⟨rfl, by decide, ?_, ?_⟩
  · exact (c10_divisibility_only_validation envCpu (fun _ => (0 : Image))
      (fun _ => "payload") 0 "t" "u" none 512 512 (-3) (-1) 7 stReady).2
      readyPipe rfl (by decide) (by decide)
  · exact (c10_divisibility_only_validation envCpu (fun _ => (0 : Image))
      (fun _ => "payload") 0 "t" "u" none 100 512 (-3) (-1) 7 stReady).1.mpr (by decide)

end ZImageTurbo
